import Mathlib

/-!
Verification development for the coffee-gut-microbiome repository.

The repository holds two standalone scripts:

* `scripts/download_agp_sample.py` — attempts an authenticated fetch of
  American Gut Project metadata from Qiita and, on any failure (missing
  credentials, non-200 response, exception), falls back to generating a
  synthetic dataset (metadata, OTU feature table, taxonomy) with a fixed
  random seed, serializing all three tables as tab-separated files.
* `scripts/process_predict1_excel.py` — locates a spreadsheet file,
  enumerates its sheets, and classifies sheets by keyword substring
  matching as microbiome-data or metadata sheets.

This file gives a shallow embedding of both scripts.  The numpy global
random generator is modelled as explicit state passing of an `RNG` value;
library primitives (the numpy draw functions, `pandas.read_csv`,
`DataFrame.sample`, `DataFrame.to_csv`) are modelled as deterministic
Lean functions, documented at each definition.  The properties proved
below depend on the determinism and typing of those primitives, not on
the particular pseudo-random words they produce.
-/

/-- Model of the numpy legacy global pseudo-random generator (MT19937).
The generator is abstracted to a deterministic word stream: `state` is
the current generator state.  The concrete step below is a 32-bit linear
congruential update; the theorems proved in this file depend only on the
stream being a deterministic function of the state, never on the
particular words produced. -/
structure RNG where
  state : Nat
deriving DecidableEq, Repr

/-- One step of the modelled generator: produce the next 32-bit word and
the successor state. -/
def rngNext (r : RNG) : Nat × RNG :=
  let s := (r.state * 1664525 + 1013904223) % 4294967296
  (s, ⟨s⟩)

/-- Model of `np.random.seed(s)`: reset the global generator to a state
determined solely by the seed. -/
def seedRng (seed : Nat) : RNG :=
  ⟨seed % 4294967296⟩

/-- Modelled library primitive `np.random.randint(lo, hi)`: one integer
draw in the half-open interval `[lo, hi)`. -/
def np_randint (lo hi : Int) (r : RNG) : Int × RNG :=
  let s := rngNext r
  (lo + ((s.1 % (hi - lo).toNat : Nat) : Int), s.2)

/-- `np.random.randint(lo, hi, n)`: a vector of `n` integer draws, taken
sequentially from the generator (numpy fills the output array in
order). -/
def np_randint_list (lo hi : Int) : Nat → RNG → List Int × RNG
  | 0, r => ([], r)
  | k + 1, r =>
    let v := np_randint lo hi r
    let rest := np_randint_list lo hi k v.2
    (v.1 :: rest.1, rest.2)

/-- Modelled library primitive `np.random.choice(xs)`: one uniform draw
from the list `xs` (numpy raises on an empty list; the model returns the
empty string in that unused case). -/
def np_choice (xs : List String) (r : RNG) : String × RNG :=
  let s := rngNext r
  (xs.getD (s.1 % xs.length) "", s.2)

/-- `np.random.choice(xs, n)`: a vector of `n` sequential uniform draws
from `xs`. -/
def np_choice_list (xs : List String) : Nat → RNG → List String × RNG
  | 0, r => ([], r)
  | k + 1, r =>
    let v := np_choice xs r
    let rest := np_choice_list xs k v.2
    (v.1 :: rest.1, rest.2)

/-- Modelled library primitive `np.random.normal(25, 5).astype(int)`:
the floating-point normal draw truncated to an integer is abstracted to
an integer-valued deterministic draw centred at 25.  (Floating-point
arithmetic is not modelled; no claim below depends on the value.) -/
def np_normal_int (r : RNG) : Int × RNG :=
  let s := rngNext r
  (25 + ((s.1 % 41 : Nat) : Int) - 20, s.2)

/-- `np.random.normal(25, 5, n).astype(int)`: a vector of `n` sequential
truncated normal draws. -/
def np_normal_int_list : Nat → RNG → List Int × RNG
  | 0, r => ([], r)
  | k + 1, r =>
    let v := np_normal_int r
    let rest := np_normal_int_list k v.2
    (v.1 :: rest.1, rest.2)

/-- Modelled library primitive `np.random.negative_binomial(5, 0.5)`:
one draw from the negative-binomial count distribution, which by
definition yields a non-negative integer (the number of failures before
the fifth success).  The model derives the count deterministically from
the next generator word. -/
def np_negative_binomial (r : RNG) : Nat × RNG :=
  let s := rngNext r
  (s.1 % 64, s.2)

/-- One row of `np.random.negative_binomial(5, 0.5, size=(rows, cols))`:
`cols` sequential count draws, stored as int64 (modelled `Int`). -/
def negBinomRow : Nat → RNG → List Int × RNG
  | 0, r => ([], r)
  | k + 1, r =>
    let v := np_negative_binomial r
    let rest := negBinomRow k v.2
    ((v.1 : Int) :: rest.1, rest.2)

/-- `np.random.negative_binomial(5, 0.5, size=(rows, cols))`: numpy
fills the matrix row-major, so the draws are taken row after row. -/
def negBinomMatrix : Nat → Nat → RNG → List (List Int) × RNG
  | 0, _, r => ([], r)
  | k + 1, cols, r =>
    let row := negBinomRow cols r
    let rest := negBinomMatrix k cols row.2
    (row.1 :: rest.1, rest.2)

/-- Zero-padded decimal rendering, modelling Python's `f"{i:05d}"` and
`f"{i:04d}"` format specifiers for non-negative `i`. -/
def pad (width i : Nat) : String :=
  let s := toString i
  if s.length < width then String.mk (List.replicate (width - s.length) '0') ++ s
  else s

/-- The metadata table built by `create_sample_data`: rows indexed by
sample identifier, one typed column per participant attribute, in the
column order of the source's DataFrame literal. -/
structure Metadata where
  indexName : String
  sampleIds : List String
  age : List Int
  gender : List String
  country : List String
  sampleType : List String
  dietType : List String
  coffeeConsumption : List String
  antibioticsPastYear : List String
  bmi : List Int
deriving DecidableEq, Repr

/-- The OTU feature table: rows indexed by OTU identifier, columns
indexed by sample identifier, int64 count cells. -/
structure FeatureTable where
  indexName : String
  otuIds : List String
  sampleIds : List String
  counts : List (List Int)
deriving DecidableEq, Repr

/-- The taxonomy table: rows indexed by OTU identifier, one column
holding the semicolon-delimited classification string. -/
structure Taxonomy where
  indexName : String
  otuIds : List String
  taxonomy : List String
deriving DecidableEq, Repr

/-- Vocabulary of the `gender` draw in `create_sample_data`. -/
def genderVocab : List String := ["male", "female"]

/-- Vocabulary of the `country` draw in `create_sample_data`. -/
def countryVocab : List String := ["USA", "Canada", "UK", "Australia"]

/-- Vocabulary of the `diet_type` draw in `create_sample_data`. -/
def dietVocab : List String := ["Omnivore", "Vegetarian", "Vegan"]

/-- Vocabulary of the `coffee_consumption` draw in `create_sample_data`. -/
def coffeeVocab : List String := ["none", "occasional", "daily"]

/-- Vocabulary of the `antibiotics_past_year` draw in
`create_sample_data`. -/
def antibioticsVocab : List String := ["Yes", "No"]

/-- The metadata DataFrame literal of `create_sample_data`: the eight
column expressions are evaluated in source order, each consuming draws
from the global generator (`sample_type` is the broadcast constant
`'Stool'`). -/
def genMetadata (n : Nat) (sample_ids : List String) (r : RNG) : Metadata × RNG :=
  let age := np_randint_list 18 80 n r
  let gender := np_choice_list genderVocab n age.2
  let country := np_choice_list countryVocab n gender.2
  let diet_type := np_choice_list dietVocab n country.2
  let coffee := np_choice_list coffeeVocab n diet_type.2
  let antibiotics := np_choice_list antibioticsVocab n coffee.2
  let bmi := np_normal_int_list n antibiotics.2
  (⟨"#SampleID", sample_ids, age.1, gender.1, country.1,
    List.replicate n "Stool", diet_type.1, coffee.1, antibiotics.1, bmi.1⟩,
   bmi.2)

/-- The fixed OTU count of the generator (`n_otus = 500`). -/
def n_otus : Nat := 500

/-- The OTU identifier list `[f"OTU_{i:04d}" for i in range(n_otus)]`. -/
def otuIdList : List String :=
  (List.range n_otus).map (fun i => "OTU_" ++ pad 4 i)

/-- The feature-table generation block: a `n_otus × |sample_ids|`
negative-binomial count matrix indexed by OTU rows and sample columns
(`#OTU ID` index name).  Shared verbatim between `create_sample_data`
and the real-metadata branch of `download_agp_sample`, which duplicate
this block textually in the source. -/
def genFeatureTable (sample_ids : List String) (r : RNG) : FeatureTable × RNG :=
  let m := negBinomMatrix n_otus sample_ids.length r
  (⟨"#OTU ID", otuIdList, sample_ids, m.1⟩, m.2)

/-- Rank vocabularies of the taxonomy generation loop. -/
def phylaVocab : List String :=
  ["Firmicutes", "Bacteroidetes", "Proteobacteria", "Actinobacteria"]

/-- Class-rank vocabulary of the taxonomy generation loop. -/
def classesVocab : List String :=
  ["Clostridia", "Bacteroidia", "Gammaproteobacteria", "Actinobacteria"]

/-- Order-rank vocabulary of the taxonomy generation loop. -/
def ordersVocab : List String :=
  ["Clostridiales", "Bacteroidales", "Enterobacteriales", "Bifidobacteriales"]

/-- Family-rank vocabulary of the taxonomy generation loop. -/
def familiesVocab : List String :=
  ["Lachnospiraceae", "Bacteroidaceae", "Enterobacteriaceae", "Bifidobacteriaceae"]

/-- Genus-rank vocabulary of the taxonomy generation loop. -/
def generaVocab : List String :=
  ["Roseburia", "Bacteroides", "Escherichia", "Bifidobacterium"]

/-- Species-rank vocabulary of the taxonomy generation loop. -/
def speciesVocab : List String :=
  ["faecalis", "thetaiotaomicron", "coli", "longum"]

/-- One iteration of the taxonomy loop: six independent rank draws
assembled into the semicolon-delimited classification string. -/
def genTaxString (r : RNG) : String × RNG :=
  let phylum := np_choice phylaVocab r
  let class_ := np_choice classesVocab phylum.2
  let order := np_choice ordersVocab class_.2
  let family := np_choice familiesVocab order.2
  let genus := np_choice generaVocab family.2
  let sp := np_choice speciesVocab genus.2
  ("k__Bacteria;p__" ++ phylum.1 ++ ";c__" ++ class_.1 ++ ";o__" ++ order.1 ++
     ";f__" ++ family.1 ++ ";g__" ++ genus.1 ++ ";s__" ++ sp.1,
   sp.2)

/-- The `taxonomy_assignments` accumulation loop: one classification
string per OTU, drawn sequentially. -/
def genTaxStrings : Nat → RNG → List String × RNG
  | 0, r => ([], r)
  | k + 1, r =>
    let v := genTaxString r
    let rest := genTaxStrings k v.2
    (v.1 :: rest.1, rest.2)

/-- The taxonomy generation block (`#OTU ID`-indexed single-column
DataFrame), shared between `create_sample_data` and the real-metadata
branch of `download_agp_sample`. -/
def genTaxonomy (r : RNG) : Taxonomy × RNG :=
  let strs := genTaxStrings n_otus r
  (⟨"#OTU ID", otuIdList, strs.1⟩, strs.2)

/-- Embedding of `create_sample_data(n_samples)`: the procedure first
executes `np.random.seed(42)`, discarding the incoming global generator
state `r`, then generates sample identifiers, metadata, the feature
table and the taxonomy table with sequential draws. -/
def create_sample_data (n_samples : Nat) (_r : RNG) :
    Metadata × FeatureTable × Taxonomy :=
  let r0 := seedRng 42
  let sample_ids := (List.range n_samples).map (fun i => "Sample_" ++ pad 5 i)
  let md := genMetadata n_samples sample_ids r0
  let ft := genFeatureTable sample_ids md.2
  let tax := genTaxonomy ft.2
  (md.1, ft.1, tax.1)

/-- Modelled library primitive `DataFrame.to_csv(sep='\t')` for the
metadata table: header line of index name and column names, then one
tab-separated line per sample row. -/
def metadataRowTsv (m : Metadata) (i : Nat) : String :=
  m.sampleIds.getD i "" ++ "\t" ++ toString (m.age.getD i 0) ++ "\t" ++
    m.gender.getD i "" ++ "\t" ++ m.country.getD i "" ++ "\t" ++
    m.sampleType.getD i "" ++ "\t" ++ m.dietType.getD i "" ++ "\t" ++
    m.coffeeConsumption.getD i "" ++ "\t" ++ m.antibioticsPastYear.getD i "" ++
    "\t" ++ toString (m.bmi.getD i 0) ++ "\n"

/-- Serialization of the metadata table (`metadata.to_csv(sep='\t')`). -/
def metadataToTsv (m : Metadata) : String :=
  m.indexName ++
    "\tage\tgender\tcountry\tsample_type\tdiet_type\tcoffee_consumption\tantibiotics_past_year\tbmi\n" ++
    String.join ((List.range m.sampleIds.length).map (metadataRowTsv m))

/-- Serialization of one feature-table row. -/
def featureRowTsv (ft : FeatureTable) (i : Nat) : String :=
  ft.otuIds.getD i "" ++
    String.join (((ft.counts.getD i []).map (fun c => "\t" ++ toString c))) ++ "\n"

/-- Serialization of the feature table
(`feature_table.to_csv(sep='\t')`). -/
def featureTableToTsv (ft : FeatureTable) : String :=
  ft.indexName ++ String.join (ft.sampleIds.map (fun s => "\t" ++ s)) ++ "\n" ++
    String.join ((List.range ft.otuIds.length).map (featureRowTsv ft))

/-- Serialization of the taxonomy table
(`taxonomy.to_csv(sep='\t')`). -/
def taxonomyToTsv (t : Taxonomy) : String :=
  t.indexName ++ "\tTaxonomy\n" ++
    String.join ((List.range t.otuIds.length).map
      (fun i => t.otuIds.getD i "" ++ "\t" ++ t.taxonomy.getD i "" ++ "\n"))

/-- C1: For every sample count, two invocations of `create_sample_data`
from arbitrary (and possibly different) prior generator states produce
identical metadata, feature and taxonomy tables, and identical
serialized outputs: the leading `np.random.seed(42)` makes generation
deterministic and the serialized outputs reproducible byte-for-byte. -/
theorem create_sample_data_deterministic (n : Nat) (r1 r2 : RNG) :
    create_sample_data n r1 = create_sample_data n r2 ∧
    metadataToTsv (create_sample_data n r1).1 =
      metadataToTsv (create_sample_data n r2).1 ∧
    featureTableToTsv (create_sample_data n r1).2.1 =
      featureTableToTsv (create_sample_data n r2).2.1 ∧
    taxonomyToTsv (create_sample_data n r1).2.2 =
      taxonomyToTsv (create_sample_data n r2).2.2 :=
  ⟨rfl, rfl, rfl, rfl⟩

/-- C3: The tables returned by `create_sample_data` are
identifier-aligned: the feature table's column identifiers equal the
metadata table's row identifiers, in the same order, and the taxonomy
table's row identifiers equal the feature table's row identifiers. -/
theorem create_sample_data_aligned (n : Nat) (r : RNG) :
    (create_sample_data n r).2.1.sampleIds =
      (create_sample_data n r).1.sampleIds ∧
    (create_sample_data n r).2.2.otuIds =
      (create_sample_data n r).2.1.otuIds :=
  ⟨rfl, rfl⟩

/-- Substring search on character lists: `listContainsInfix w s` is true
iff `w` occurs contiguously in `s`. -/
def listContainsInfix (w : List Char) : List Char → Bool
  | [] => w.isEmpty
  | c :: rest => w.isPrefixOf (c :: rest) || listContainsInfix w rest

/-- Model of Python's substring membership test `w in s`. -/
def pyIn (w s : String) : Bool :=
  listContainsInfix w.data s.data

/-- ASCII lowercasing of one character, modelling Python's `str.lower`
on the ASCII sheet and column names that occur here. -/
def charToLower (c : Char) : Char :=
  if 65 ≤ c.toNat ∧ c.toNat ≤ 90 then Char.ofNat (c.toNat + 32) else c

/-- Python `s.lower()` (ASCII model). -/
def strToLower (s : String) : String :=
  String.mk (s.data.map charToLower)

/-- The microbiome-indicating keyword set of `extract_microbiome_data`. -/
def microKeywords : List String :=
  ["otu", "asv", "abundance", "microbiome", "taxa", "species"]

/-- The metadata-indicating keyword set of `extract_microbiome_data`. -/
def metaKeywords : List String :=
  ["metadata", "sample", "participant", "demographic", "diet"]

/-- The per-sheet test `any(word in sheet_lower for word in kws)` with
`sheet_lower = sheet.lower()`. -/
def matchesAnyKeyword (kws : List String) (sheet : String) : Bool :=
  kws.any (fun w => pyIn w (strToLower sheet))

/-- Embedding of the classification loop of
`extract_microbiome_data(excel_path, sheet_names)`: each sheet name is
tested against the microbiome keyword set and, only if that fails
(`elif`), against the metadata keyword set; matches are appended to the
respective list in sheet order. -/
def extract_microbiome_data : List String → List String × List String
  | [] => ([], [])
  | sheet :: rest =>
    let r := extract_microbiome_data rest
    if matchesAnyKeyword microKeywords sheet then (sheet :: r.1, r.2)
    else if matchesAnyKeyword metaKeywords sheet then (r.1, sheet :: r.2)
    else r

/-- Result of a Python call that may raise an uncaught exception. -/
inductive PyResult (α : Type) where
  | ok (a : α)
  | exc (msg : String)
deriving DecidableEq, Repr

/-- Model of Python's `int(s)` on a string: surrounding whitespace is
stripped, an optional sign is followed by at least one decimal digit;
any other shape raises `ValueError` (modelled as `none`). -/
def parseDigits (cs : List Char) : Option Nat :=
  if cs ≠ [] ∧ cs.all Char.isDigit then
    some (cs.foldl (fun a c => a * 10 + (c.toNat - 48)) 0)
  else none

/-- Surrounding-whitespace stripping on a character list (the model of
the `int` conversion's leading/trailing whitespace tolerance). -/
def trimChars (cs : List Char) : List Char :=
  ((cs.dropWhile Char.isWhitespace).reverse.dropWhile Char.isWhitespace).reverse

/-- Python `int(s)` (decimal string conversion). -/
def pyInt (s : String) : Option Int :=
  match trimChars s.data with
  | [] => none
  | c :: rest =>
    if c = '-' then (parseDigits rest).map (fun n => -(n : Int))
    else if c = '+' then (parseDigits rest).map (fun n => (n : Int))
    else (parseDigits (c :: rest)).map (fun n => (n : Int))

/-- Model of Python list indexing `xs[i]`: negative indices count from
the end; an index out of range raises `IndexError` (modelled as
`none`). -/
def pyIndex {α : Type} (xs : List α) (i : Int) : Option α :=
  let j := if i < 0 then (xs.length : Int) + i else i
  if 0 ≤ j ∧ j < (xs.length : Int) then xs.get? j.toNat else none

/-- Embedding of `find_excel_file(data_dir)`.  The directory glob is
abstracted to its result `excel_files`; the interactive
`input("Enter the number of the PREDICT1 file: ")` is abstracted to the
string `userInput`.  With no files the function prints and returns
`None`; with several files it parses the input with `int` and indexes
the list with `int(choice) - 1`, both unguarded, so a malformed input
raises `ValueError` and an out-of-range index raises `IndexError`. -/
def find_excel_file (excel_files : List String) (userInput : String) :
    PyResult (Option String) :=
  if excel_files.isEmpty then .ok none
  else if excel_files.length > 1 then
    match pyInt userInput with
    | none => .exc "ValueError"
    | some k =>
      match pyIndex excel_files (k - 1) with
      | none => .exc "IndexError"
      | some f => .ok (some f)
  else .ok (some (excel_files.getD 0 ""))

/-- One sheet of the workbook, as the exploration procedure observes it:
its name, its column labels, and whether reading it raises (such reads
are wrapped in `try`/`except` in the source). -/
structure Sheet where
  name : String
  columns : List String
  readError : Bool
deriving DecidableEq, Repr

/-- Embedding of `explore_excel_sheets(excel_path)`: enumerates the
workbook's sheet names (the per-sheet shape/column preview only prints,
and a failing preview read is caught and printed). -/
def explore_excel_sheets (wb : List Sheet) : List String :=
  wb.map (fun sh => sh.name)

/-- The coffee keyword set of `extract_coffee_data`. -/
def coffeeKeywords : List String :=
  ["coffee", "caffeine", "beverage"]

/-- Embedding of `extract_coffee_data(excel_path, sheet_names)`: every
sheet is loaded (a failing load is caught and skipped) and its column
labels are scanned case-insensitively for the coffee keywords; the
result is the printed `coffee_found` flag. -/
def extract_coffee_data (wb : List Sheet) : Bool :=
  wb.any (fun sh =>
    !sh.readError &&
      sh.columns.any (fun col => coffeeKeywords.any (fun w => pyIn w (strToLower col))))

/-- The observable outcome of a normal return of `main` in
`process_predict1_excel.py`. -/
structure MainOutcome where
  earlyAbort : Bool
  sheetNames : List String
  microbiomeSheets : List String
  metadataSheets : List String
  coffeeFound : Bool
deriving DecidableEq, Repr

/-- Embedding of `main()` of `process_predict1_excel.py`: locate the
spreadsheet (directory contents `files`, interactive input `userInput`);
on `None` return immediately after printing; otherwise explore the
workbook `wb`, classify its sheets and scan for coffee columns.  An
exception raised by `find_excel_file` propagates uncaught.  (Lean
reserves the name `main` for executables, hence the `py_` prefix.) -/
def py_main (files : List String) (userInput : String) (wb : List Sheet) :
    PyResult MainOutcome :=
  match find_excel_file files userInput with
  | .exc m => .exc m
  | .ok none => .ok ⟨true, [], [], [], false⟩
  | .ok (some _) =>
    let sheet_names := explore_excel_sheets wb
    let em := extract_microbiome_data sheet_names
    let coffee := extract_coffee_data wb
    .ok ⟨false, sheet_names, em.1, em.2, coffee⟩

/-- C5 (counterexample): the sheet name `"otu_metadata"` matches
keywords from both fixed sets, yet the classification places it only in
the microbiome-sheet list and not in the metadata-sheet list — the
metadata test is an `elif`, so no both-matching sheet ever appears in
both lists, contradicting the claim. -/
theorem extract_both_match_counterexample :
    matchesAnyKeyword microKeywords "otu_metadata" = true ∧
    matchesAnyKeyword metaKeywords "otu_metadata" = true ∧
    extract_microbiome_data ["otu_metadata"] = (["otu_metadata"], []) ∧
    "otu_metadata" ∉ (extract_microbiome_data ["otu_metadata"]).2 := by
  decide

/-- C5 (amended): sheet-name classification matches each name against
the two fixed keyword sets by substring on the lowercased name; the
microbiome list collects exactly the matching sheets, and the metadata
list collects exactly the sheets that match the metadata set but not the
microbiome set — a sheet matching both sets appears only in the
microbiome list, and a sheet matching neither appears in neither. -/
theorem extract_microbiome_data_spec (sheets : List String) :
    extract_microbiome_data sheets =
      (sheets.filter (fun s => matchesAnyKeyword microKeywords s),
       sheets.filter (fun s =>
         !matchesAnyKeyword microKeywords s && matchesAnyKeyword metaKeywords s)) := by
  induction sheets with
  | nil => rfl
  | cons sheet rest ih =>
    simp only [extract_microbiome_data, ih, List.filter_cons]
    cases hm : matchesAnyKeyword microKeywords sheet <;>
      cases hd : matchesAnyKeyword metaKeywords sheet <;> simp [hm, hd]

/-- C7: under the fixed keyword sets, classifying a sheet list holding
the names `"OTU_Abundance"` and `"Participant_Metadata"` places
`"OTU_Abundance"` in the microbiome-indicating list and
`"Participant_Metadata"` in the metadata-indicating list. -/
theorem classify_known_sheets :
    extract_microbiome_data ["OTU_Abundance", "Participant_Metadata"] =
      (["OTU_Abundance"], ["Participant_Metadata"]) := by decide

/-- C8: with zero spreadsheet files in the input directory, the
exploration procedure returns normally (no exception value) after the
file-location step yields nothing: it aborts early with no sheet
exploration, no classification and no coffee scan, for every
interactive input and every workbook. -/
theorem py_main_no_files (userInput : String) (wb : List Sheet) :
    py_main [] userInput wb = .ok ⟨true, [], [], [], false⟩ := rfl

/-- C10: with more than one spreadsheet file present, the interactive
disambiguation parses the input with `int` and indexes the file list
unguarded: the non-numeric input `"abc"` raises `ValueError`, the
out-of-range integer `"5"` (with two files) raises `IndexError`, and the
exception propagates out of `main` uncaught. -/
theorem find_excel_file_unguarded :
    (["a.xlsx", "b.xlsx"] : List String).length > 1 ∧
    find_excel_file ["a.xlsx", "b.xlsx"] "abc" = .exc "ValueError" ∧
    find_excel_file ["a.xlsx", "b.xlsx"] "5" = .exc "IndexError" ∧
    py_main ["a.xlsx", "b.xlsx"] "abc" [] = .exc "ValueError" := by
  decide

/-- Truthiness of an optional environment-variable value, modelling
Python's `if username and password:`: `None` and the empty string are
falsy. -/
def pyTruthy (o : Option String) : Bool :=
  match o with
  | none => false
  | some s => !s.data.isEmpty

/-- The two credential environment variables consulted by the
acquisition script (`QIITA_USERNAME`, `QIITA_PASSWORD`), `none` when
unset. -/
structure Env where
  qiitaUsername : Option String
  qiitaPassword : Option String
deriving DecidableEq, Repr

/-- Embedding of `get_qiita_credentials()`: returns the pair of
environment values when both are truthy, and `(None, None)`
otherwise. -/
def get_qiita_credentials (env : Env) : Option String × Option String :=
  if pyTruthy env.qiitaUsername && pyTruthy env.qiitaPassword then
    (env.qiitaUsername, env.qiitaPassword)
  else (none, none)

/-- The fixed Qiita study identifier (`STUDY_ID = 10317`). -/
def STUDY_ID : Nat := 10317

/-- A generic DataFrame as parsed from a fetched tab-separated payload:
an index column plus string-valued cells. -/
structure DataFrame where
  indexName : String
  rowIds : List String
  cols : List String
  cells : List (List String)
deriving DecidableEq, Repr

/-- Modelled library primitive
`pd.read_csv(io.StringIO(text), sep='\t', index_col=0)`: the first
non-empty line is the header (index name, then column names), each
further non-empty line is a row whose first field is the row
identifier. -/
def pdReadTsv (text : String) : DataFrame :=
  match (text.splitOn "\n").filter (fun l => !l.isEmpty) with
  | [] => ⟨"", [], [], []⟩
  | header :: rows =>
    ⟨(header.splitOn "\t").getD 0 "",
     rows.map (fun line => (line.splitOn "\t").getD 0 ""),
     (header.splitOn "\t").drop 1,
     rows.map (fun line => (line.splitOn "\t").drop 1)⟩

/-- Modelled library primitive `df.sample(n=limit, random_state=42)`:
the seeded subsample is a deterministic selection of `limit` rows,
modelled as taking the first `limit`.  (No claim depends on which rows
the seeded permutation selects.) -/
def pdSample (df : DataFrame) (limit : Nat) : DataFrame :=
  ⟨df.indexName, df.rowIds.take limit, df.cols, df.cells.take limit⟩

/-- Serialization of a fetched DataFrame
(`metadata.to_csv(sep='\t')`). -/
def dataFrameToTsv (df : DataFrame) : String :=
  df.indexName ++ String.join (df.cols.map (fun c => "\t" ++ c)) ++ "\n" ++
    String.join ((List.range df.rowIds.length).map (fun i =>
      df.rowIds.getD i "" ++
        String.join (((df.cells.getD i []).map (fun c => "\t" ++ c))) ++ "\n"))

/-- Behaviour of the single `requests.get` call, as observed by the
script: either a response with a status code and body text, or a raised
exception (connection error, timeout, ...). -/
inductive NetOutcome where
  | response (status : Nat) (text : String)
  | raise (msg : String)
deriving DecidableEq, Repr

/-- Embedding of
`fetch_samples_with_auth(username, password, study_id, limit)`: the one
network call is abstracted to its outcome `net`.  A 200 response is
parsed and, when larger than `limit`, subsampled with the fixed seed; a
401 response and every other non-200 status return `None`; a raised
exception is caught by the enclosing `try`/`except` and also yields
`None`. -/
def fetch_samples_with_auth (_username _password : String) (_study_id : Nat)
    (limit : Nat) (net : NetOutcome) : Option DataFrame :=
  match net with
  | .raise _ => none
  | .response status text =>
    if status = 200 then
      let df := pdReadTsv text
      some (if df.rowIds.length > limit then pdSample df limit else df)
    else if status = 401 then none
    else none

/-- The observable outcome of `download_agp_sample`: how many network
calls were performed, whether the synthetic fallback produced the data,
and the serialized contents written to `metadata.tsv`,
`feature-table.tsv` and `taxonomy.tsv`. -/
structure DownloadOutcome where
  netCalls : Nat
  usedSynthetic : Bool
  metadataTsv : String
  featureTableTsv : String
  taxonomyTsv : String
deriving DecidableEq, Repr

/-- Embedding of `download_agp_sample(n_samples, use_auth)`.  When
`use_auth` holds and both credentials are truthy, the single
authenticated fetch is attempted (`netCalls = 1`); otherwise no network
call is made (`netCalls = 0`) and `metadata` stays `None`.  A `None`
metadata triggers the synthetic fallback `create_sample_data` for all
three tables; a fetched DataFrame keeps the real metadata and generates
the feature table and taxonomy from the current (unseeded) generator
state, duplicating the generation blocks of `create_sample_data`.  The
three tables are then serialized. -/
def download_agp_sample (env : Env) (net : NetOutcome) (n_samples : Nat)
    (use_auth : Bool) (r : RNG) : DownloadOutcome :=
  match (if use_auth then get_qiita_credentials env else (none, none)) with
  | (some u, some p) =>
    match fetch_samples_with_auth u p STUDY_ID n_samples net with
    | some df =>
      let ft := genFeatureTable df.rowIds r
      let tax := genTaxonomy ft.2
      ⟨1, false, dataFrameToTsv df, featureTableToTsv ft.1, taxonomyToTsv tax.1⟩
    | none =>
      let syn := create_sample_data n_samples r
      ⟨1, true, metadataToTsv syn.1, featureTableToTsv syn.2.1,
        taxonomyToTsv syn.2.2⟩
  | _ =>
    let syn := create_sample_data n_samples r
    ⟨0, true, metadataToTsv syn.1, featureTableToTsv syn.2.1,
      taxonomyToTsv syn.2.2⟩

/-- C2: when either credential environment variable is unset, the
acquisition procedure performs no network call at all (`netCalls = 0`)
and produces all three outputs via the synthetic fallback
`create_sample_data`. -/
theorem download_no_credentials_synthetic (env : Env)
    (h : env.qiitaUsername = none ∨ env.qiitaPassword = none)
    (net : NetOutcome) (n : Nat) (r : RNG) :
    (download_agp_sample env net n true r).netCalls = 0 ∧
    (download_agp_sample env net n true r).usedSynthetic = true ∧
    (download_agp_sample env net n true r).metadataTsv =
      metadataToTsv (create_sample_data n r).1 ∧
    (download_agp_sample env net n true r).featureTableTsv =
      featureTableToTsv (create_sample_data n r).2.1 ∧
    (download_agp_sample env net n true r).taxonomyTsv =
      taxonomyToTsv (create_sample_data n r).2.2 := by
  obtain ⟨u, p⟩ := env
  have hc : get_qiita_credentials ⟨u, p⟩ = (none, none) := by
    rcases h with h | h <;> simp_all [get_qiita_credentials, pyTruthy]
  simp [download_agp_sample, hc]

/-- Witness for C2 at a concrete unset environment: with no username
and no password, one concrete run makes no network call and writes the
synthetic tables. -/
theorem download_no_credentials_synthetic_witness :
    (download_agp_sample ⟨none, none⟩ (.response 200 "payload") 3 true ⟨0⟩).netCalls = 0 ∧
    (download_agp_sample ⟨none, none⟩ (.response 200 "payload") 3 true ⟨0⟩).usedSynthetic = true ∧
    (download_agp_sample ⟨none, none⟩ (.response 200 "payload") 3 true ⟨0⟩).metadataTsv =
      metadataToTsv (create_sample_data 3 ⟨0⟩).1 ∧
    (download_agp_sample ⟨none, none⟩ (.response 200 "payload") 3 true ⟨0⟩).featureTableTsv =
      featureTableToTsv (create_sample_data 3 ⟨0⟩).2.1 ∧
    (download_agp_sample ⟨none, none⟩ (.response 200 "payload") 3 true ⟨0⟩).taxonomyTsv =
      taxonomyToTsv (create_sample_data 3 ⟨0⟩).2.2 :=
  download_no_credentials_synthetic ⟨none, none⟩ (Or.inl rfl)
    (.response 200 "payload") 3 ⟨0⟩

/-- C4: for every non-200 HTTP status, the fetch step yields no
metadata (`None`), and the acquisition procedure — here run with truthy
credentials so the fetch is actually attempted — produces all three
output tables from the synthetic fallback, discarding the response
body. -/
theorem download_non200_synthetic (u p : String)
    (hu : u.data.isEmpty = false) (hp : p.data.isEmpty = false)
    (status : Nat) (hs : status ≠ 200) (text : String) (n : Nat) (r : RNG) :
    fetch_samples_with_auth u p STUDY_ID n (.response status text) = none ∧
    (download_agp_sample ⟨some u, some p⟩ (.response status text) n true r).netCalls = 1 ∧
    (download_agp_sample ⟨some u, some p⟩ (.response status text) n true r).usedSynthetic = true ∧
    (download_agp_sample ⟨some u, some p⟩ (.response status text) n true r).metadataTsv =
      metadataToTsv (create_sample_data n r).1 ∧
    (download_agp_sample ⟨some u, some p⟩ (.response status text) n true r).featureTableTsv =
      featureTableToTsv (create_sample_data n r).2.1 ∧
    (download_agp_sample ⟨some u, some p⟩ (.response status text) n true r).taxonomyTsv =
      taxonomyToTsv (create_sample_data n r).2.2 := by
  have hf : fetch_samples_with_auth u p STUDY_ID n (.response status text) = none := by
    simp [fetch_samples_with_auth, hs]
  have hc : get_qiita_credentials ⟨some u, some p⟩ = (some u, some p) := by
    simp [get_qiita_credentials, pyTruthy, hu, hp]
  refine ⟨hf, ?_⟩
  simp [download_agp_sample, hc, hf]

/-- Witness for C4 at a concrete 404 response: the fetch yields no
metadata and the synthetic fallback produces all three outputs. -/
theorem download_non200_synthetic_witness :
    fetch_samples_with_auth "alice" "pw" STUDY_ID 2 (.response 404 "partial") = none ∧
    (download_agp_sample ⟨some "alice", some "pw"⟩ (.response 404 "partial") 2 true ⟨0⟩).netCalls = 1 ∧
    (download_agp_sample ⟨some "alice", some "pw"⟩ (.response 404 "partial") 2 true ⟨0⟩).usedSynthetic = true ∧
    (download_agp_sample ⟨some "alice", some "pw"⟩ (.response 404 "partial") 2 true ⟨0⟩).metadataTsv =
      metadataToTsv (create_sample_data 2 ⟨0⟩).1 ∧
    (download_agp_sample ⟨some "alice", some "pw"⟩ (.response 404 "partial") 2 true ⟨0⟩).featureTableTsv =
      featureTableToTsv (create_sample_data 2 ⟨0⟩).2.1 ∧
    (download_agp_sample ⟨some "alice", some "pw"⟩ (.response 404 "partial") 2 true ⟨0⟩).taxonomyTsv =
      taxonomyToTsv (create_sample_data 2 ⟨0⟩).2.2 :=
  download_non200_synthetic "alice" "pw" (by decide) (by decide) 404
    (by decide) "partial" 2 ⟨0⟩

/-- A single modelled `np.random.choice` draw from a nonempty list is a
member of that list. -/
theorem np_choice_mem (xs : List String) (hne : xs ≠ []) (r : RNG) :
    (np_choice xs r).1 ∈ xs := by
  have hlen : 0 < xs.length := List.length_pos.mpr hne
  have hm : (rngNext r).1 % xs.length < xs.length := Nat.mod_lt _ hlen
  simp only [np_choice]
  rw [List.getD_eq_getElem xs "" hm]
  exact List.getElem_mem hm

/-- Every position of a vector of modelled `np.random.choice` draws
from a nonempty list holds a member of that list. -/
theorem np_choice_list_getD_mem (xs : List String) (hne : xs ≠ []) :
    ∀ (k : Nat) (r : RNG) (i : Nat), i < k →
      (np_choice_list xs k r).1.getD i "" ∈ xs := by
  intro k
  induction k with
  | zero => intro r i hi; omega
  | succ m ih =>
    intro r i hi
    cases i with
    | zero => simpa [np_choice_list] using np_choice_mem xs hne r
    | succ j =>
      simpa [np_choice_list] using ih (np_choice xs r).2 j (by omega)

/-- A single modelled `np.random.randint(lo, hi)` draw lies in
`[lo, hi)`. -/
theorem np_randint_bounds (lo hi : Int) (hlt : lo < hi) (r : RNG) :
    lo ≤ (np_randint lo hi r).1 ∧ (np_randint lo hi r).1 < hi := by
  simp only [np_randint]
  have ht : 0 < (hi - lo).toNat := by omega
  have hm : (rngNext r).1 % (hi - lo).toNat < (hi - lo).toNat := Nat.mod_lt _ ht
  omega

/-- Every position of a vector of modelled `np.random.randint(lo, hi)`
draws lies in `[lo, hi)`. -/
theorem np_randint_list_getD_bounds (lo hi : Int) (hlt : lo < hi) :
    ∀ (k : Nat) (r : RNG) (i : Nat), i < k →
      lo ≤ (np_randint_list lo hi k r).1.getD i 0 ∧
        (np_randint_list lo hi k r).1.getD i 0 < hi := by
  intro k
  induction k with
  | zero => intro r i hik; omega
  | succ m ih =>
    intro r i hik
    cases i with
    | zero => simpa [np_randint_list] using np_randint_bounds lo hi hlt r
    | succ j =>
      simpa [np_randint_list] using ih (np_randint lo hi r).2 j (by omega)

/-- Every position of a row of modelled negative-binomial draws holds a
non-negative count. -/
theorem negBinomRow_getD_nonneg :
    ∀ (k : Nat) (r : RNG) (i : Nat), i < k →
      0 ≤ (negBinomRow k r).1.getD i 0 := by
  intro k
  induction k with
  | zero => intro r i hi; omega
  | succ m ih =>
    intro r i hi
    cases i with
    | zero => simp [negBinomRow]
    | succ j =>
      simpa [negBinomRow] using ih (np_negative_binomial r).2 j (by omega)

/-- Every cell of the modelled negative-binomial matrix is a
non-negative count. -/
theorem negBinomMatrix_getD_nonneg :
    ∀ (rows cols : Nat) (r : RNG) (i j : Nat), i < rows → j < cols →
      0 ≤ ((negBinomMatrix rows cols r).1.getD i []).getD j 0 := by
  intro rows
  induction rows with
  | zero => intro cols r i j hi hj; omega
  | succ m ih =>
    intro cols r i j hi hj
    cases i with
    | zero => simpa [negBinomMatrix] using negBinomRow_getD_nonneg cols r j hj
    | succ i' =>
      simpa [negBinomMatrix] using ih cols (negBinomRow cols r).2 i' j (by omega) hj

/-- C9: every cell of the synthetically generated feature table is a
non-negative integer count, for every sample count and every
(OTU, sample) position — the negative-binomial draw yields a
non-negative count at each cell. -/
theorem feature_table_cells_nonneg (n : Nat) (r : RNG) (i j : Nat)
    (hi : i < n_otus) (hj : j < n) :
    0 ≤ (((create_sample_data n r).2.1.counts).getD i []).getD j 0 :=
  negBinomMatrix_getD_nonneg n_otus
    ((List.range n).map (fun k => "Sample_" ++ pad 5 k)).length
    (genMetadata n ((List.range n).map (fun k => "Sample_" ++ pad 5 k))
      (seedRng 42)).2
    i j hi (by simpa using hj)

/-- Witness for C9: the top-left cell of a concrete one-sample run is a
non-negative count. -/
theorem feature_table_cells_nonneg_witness :
    0 < n_otus ∧ 0 < 1 ∧
      0 ≤ (((create_sample_data 1 ⟨0⟩).2.1.counts).getD 0 []).getD 0 0 :=
  ⟨by decide, by decide, feature_table_cells_nonneg 1 ⟨0⟩ 0 0 (by decide) (by decide)⟩

/-- C6 (counterexample): the claim's four-way vocabularies fail on the
code: `country` is indeed drawn from a four-value vocabulary, but
`diet_type` and `coffee_consumption` are drawn from three-value
vocabularies and `antibiotics_past_year` from a two-value vocabulary. -/
theorem metadata_vocab_counterexample :
    ¬ (countryVocab.length = 4 ∧ dietVocab.length = 4 ∧
        coffeeVocab.length = 4 ∧ antibioticsVocab.length = 4) ∧
    countryVocab.length = 4 ∧ dietVocab.length = 3 ∧
    coffeeVocab.length = 3 ∧ antibioticsVocab.length = 2 := by
  decide

/-- C6 (amended): in the synthetic metadata, ages are drawn uniformly
from the fixed range `[18, 80)`, gender is a binary categorical draw,
country is a four-way categorical draw, diet type and coffee consumption
are three-way categorical draws, and antibiotics history is a binary
categorical draw: every row's value lies in the respective fixed
vocabulary. -/
theorem metadata_draw_ranges (n : Nat) (r : RNG) (i : Nat) (hi : i < n) :
    countryVocab.length = 4 ∧ genderVocab.length = 2 ∧ dietVocab.length = 3 ∧
    coffeeVocab.length = 3 ∧ antibioticsVocab.length = 2 ∧
    18 ≤ (create_sample_data n r).1.age.getD i 0 ∧
    (create_sample_data n r).1.age.getD i 0 < 80 ∧
    (create_sample_data n r).1.gender.getD i "" ∈ genderVocab ∧
    (create_sample_data n r).1.country.getD i "" ∈ countryVocab ∧
    (create_sample_data n r).1.dietType.getD i "" ∈ dietVocab ∧
    (create_sample_data n r).1.coffeeConsumption.getD i "" ∈ coffeeVocab ∧
    (create_sample_data n r).1.antibioticsPastYear.getD i "" ∈ antibioticsVocab := by
  refine ⟨by decide, by decide, by decide, by decide, by decide, ?_, ?_, ?_, ?_, ?_, ?_, ?_⟩
  · exact (np_randint_list_getD_bounds 18 80 (by decide) n _ i hi).1
  · exact (np_randint_list_getD_bounds 18 80 (by decide) n _ i hi).2
  · exact np_choice_list_getD_mem genderVocab (by decide) n _ i hi
  · exact np_choice_list_getD_mem countryVocab (by decide) n _ i hi
  · exact np_choice_list_getD_mem dietVocab (by decide) n _ i hi
  · exact np_choice_list_getD_mem coffeeVocab (by decide) n _ i hi
  · exact np_choice_list_getD_mem antibioticsVocab (by decide) n _ i hi

/-- Witness for C6 (amended): the first row of a concrete one-sample
run draws each attribute from its fixed vocabulary and its age from
`[18, 80)`. -/
theorem metadata_draw_ranges_witness :
    0 < 1 ∧
      (countryVocab.length = 4 ∧ genderVocab.length = 2 ∧ dietVocab.length = 3 ∧
       coffeeVocab.length = 3 ∧ antibioticsVocab.length = 2 ∧
       18 ≤ (create_sample_data 1 ⟨0⟩).1.age.getD 0 0 ∧
       (create_sample_data 1 ⟨0⟩).1.age.getD 0 0 < 80 ∧
       (create_sample_data 1 ⟨0⟩).1.gender.getD 0 "" ∈ genderVocab ∧
       (create_sample_data 1 ⟨0⟩).1.country.getD 0 "" ∈ countryVocab ∧
       (create_sample_data 1 ⟨0⟩).1.dietType.getD 0 "" ∈ dietVocab ∧
       (create_sample_data 1 ⟨0⟩).1.coffeeConsumption.getD 0 "" ∈ coffeeVocab ∧
       (create_sample_data 1 ⟨0⟩).1.antibioticsPastYear.getD 0 "" ∈ antibioticsVocab) :=
  ⟨by decide, metadata_draw_ranges 1 ⟨0⟩ 0 (by decide)⟩
